import Mathlib

/-!
Verification of the FECD sync service (`src/main.py`, `src/utils/nfse.py`)
against its natural-language specification.  The Python source is shallowly
embedded: Python `Optional[str]` values become `Option String`, Python floats
become `ℚ` (all values handled here are exact decimals), fallible operations
become `Except`, and network/database collaborators become explicit
environment parameters.  Functions suffixed `Spec…` are *not* taken from the
source: they render a spec sentence verbatim, for comparison with the
source-derived definition.
-/

namespace FecdSync

/-- Python truthiness of an `Optional[str]` value (`None` and `""` are falsy). -/
def truthy : Option String → Bool
  | none => false
  | some s => s != ""

/-- Python truthiness of an `Optional[int]` value (`None` and `0` are falsy). -/
def truthyNat : Option Nat → Bool
  | none => false
  | some n => n != 0

/-- `''.join(filter(str.isdigit, s))`. -/
def digitsOnly (s : String) : String :=
  ⟨s.data.filter Char.isDigit⟩

/-- Lexicographic `≤` on code-point lists, the order Python uses to compare
strings. -/
def lexLe : List Char → List Char → Bool
  | [], _ => true
  | _ :: _, [] => false
  | a :: as, b :: bs => if a < b then true else if a = b then lexLe as bs else false

/-- Python `s1 <= s2` on strings (lexicographic by code point). -/
def pyStrLe (a b : String) : Bool :=
  lexLe a.data b.data

/-- Helper for Python's `needle in haystack` on strings. -/
def infixOfB (pat : List Char) : List Char → Bool
  | [] => pat.isEmpty
  | c :: rest => pat.isPrefixOf (c :: rest) || infixOfB pat rest

/-- Python `needle in haystack` substring test. -/
def strIn (needle haystack : String) : Bool :=
  infixOfB needle.data haystack.data

/-- Digit-string to number. -/
def digitsToNat (l : List Char) : Nat :=
  l.foldl (fun a c => a * 10 + (c.toNat - '0'.toNat)) 0

/-- Splitter for Python `s.split(sep)` with a one-character separator:
every occurrence splits, empty pieces are kept. -/
def splitChar (sep : Char) : List Char → List Char → List (List Char)
  | [], acc => [acc.reverse]
  | c :: rest, acc =>
      if c = sep then acc.reverse :: splitChar sep rest []
      else splitChar sep rest (c :: acc)

/-- Python `s.split(sep)` for a one-character separator. -/
def pySplit (sep : Char) (s : String) : List String :=
  (splitChar sep s.data []).map fun l => ⟨l⟩

/-- Python slice `s[:n]`. -/
def pyTake (s : String) (n : Nat) : String :=
  ⟨s.data.take n⟩

/-- Python `s.lower()`. -/
def pyLower (s : String) : String :=
  ⟨s.data.map Char.toLower⟩

/-- Strip leading and trailing whitespace (`float()` tolerates it). -/
def pyTrim (s : String) : List Char :=
  ((s.data.dropWhile Char.isWhitespace).reverse.dropWhile Char.isWhitespace).reverse

/-- Python `int(s)` for an unsigned decimal literal, `none` where `int()`
raises (signs and surrounding whitespace, which Python tolerates, do not
occur in the `"MM/YYYY"` inputs this models). -/
def pyToNat? (s : String) : Option Nat :=
  if s != "" && s.data.all Char.isDigit then some (digitsToNat s.data) else none

/-! ### Run log (`main.py` lines 27-31, `log_msg`)

`log_msg` appends an entry to `SYNC_STATE["logs"]` and then pops the first
element whenever the length exceeds 50.  Timestamp formatting is irrelevant to
the bound, so the entry is taken as an opaque string. -/

/-- One `log_msg` call on the rolling log: append, then `pop(0)` when the
length exceeds 50. -/
def logAppendOne (logs : List String) (entry : String) : List String :=
  let l := logs ++ [entry]
  if 50 < l.length then l.drop 1 else l

/-! ### Certificate identity (`utils/nfse.py` lines 12-38, `main.py` 227-249)

`pkcs12.load_key_and_certificates` and the certificate object are collaborators;
their outcome is modelled by `P12Load`: either the bundle/passphrase/certificate
is unusable (any exception, caught by the bare `except` in `_extract_cnpj`) or
it yields the certificate subject's attribute list. -/

/-- One attribute of a certificate subject: its OID (dotted string) and value. -/
structure SubjectAttr where
  oid : String
  value : String

/-- Outcome of opening the PKCS#12 bundle with the given passphrase. -/
inductive P12Load where
  | failure (err : String)
  | ok (subject : List SubjectAttr)

/-- `x509.NameOID.COMMON_NAME`. -/
def commonNameOid : String := "2.5.4.3"

/-- `NFSeService._extract_cnpj`: on any load failure the bare `except` leaves
`self.cnpj = None`; otherwise scan subject attributes, and for each common-name
attribute split its value on `:` and take the first part whose digits-only form
has exactly 14 characters. -/
def extractCnpj : P12Load → Option String
  | .failure _ => none
  | .ok subject =>
      subject.findSome? fun a =>
        if a.oid == commonNameOid then
          (pySplit ':' a.value).findSome? fun part =>
            if (digitsOnly part).length == 14 then some (digitsOnly part) else none
        else none

/-- `POST /sincronizar` (`main.py` lines 227-249) up to the scheduling point:
reject with 403 on a token mismatch; construct `NFSeService` (which never
raises, its failure being `cnpj = None`); raise-and-catch into a 400 exactly
when `cnpj` is falsy; otherwise accept with the detected identifier. -/
def disparar (allowedToken token : String) (load : P12Load) : Except Nat String :=
  if token != allowedToken then .error 403
  else
    match extractCnpj load with
    | none => .error 400
    | some c => if c == "" then .error 400 else .ok c

/-! ### Month parsing (`main.py` lines 83-88)

`mm, aaaa = mes.split("/")` (raises unless exactly two parts), `int(..)`
conversions, and `calendar.monthrange(int(aaaa), int(mm))[1]`.  `monthrange`
raises unless the month is 1..12 and the year is in `datetime`'s 1..9999
range; negative or non-numeric components are modelled as the same failure
(`String.toNat?` returns `none` there, where Python's `int()` would either
raise or produce a value `monthrange` rejects). -/

/-- Gregorian leap-year rule used by `calendar`. -/
def isLeapB (y : Nat) : Bool :=
  y % 4 == 0 && (y % 100 != 0 || y % 400 == 0)

/-- `calendar.monthrange(y, m)[1]`: number of days of the month. -/
def lastDay (y m : Nat) : Nat :=
  if m == 2 then (if isLeapB y then 29 else 28)
  else if m == 4 || m == 6 || m == 9 || m == 11 then 30
  else 31

/-- `f"{last_day:02d}"`. -/
def pad2 (n : Nat) : String :=
  if n < 10 then "0" ++ toString n else toString n

/-- Lines 84-88: derive `dt_inicio`/`dt_fim` from `mes` (`"MM/YYYY"`); the
bounds reuse the original `mm`/`aaaa` substrings. -/
def deriveDates (mes : String) : Except String (String × String) :=
  match pySplit '/' mes with
  | [mm, aaaa] =>
      match pyToNat? mm, pyToNat? aaaa with
      | some m, some y =>
          if 1 ≤ m && m ≤ 12 && 1 ≤ y && y ≤ 9999 then
            .ok (aaaa ++ "-" ++ mm ++ "-01", aaaa ++ "-" ++ mm ++ "-" ++ pad2 (lastDay y m))
          else .error "bad month"
      | _, _ => .error "invalid literal for int"
  | _ => .error "unpack"

/-! ### Numeric extraction (`main.py` line 158)

`valor_bruto = float(get_xml_text(val_node, ["vLiq", "vNF"]) or 0)`.
`get_xml_text` yields `None` or a non-empty tag text; `float()` parses a
decimal literal or raises `ValueError`.  `pyFloat?` models `float()` on
optionally signed decimal literals (the only forms these documents carry);
the claims depend only on its partiality, not on exotic accepted forms such
as `"inf"` or exponents. -/

/-- Python `float(s)` on an optionally signed decimal literal, `none` where
`float()` raises `ValueError`. -/
def pyFloat? (s : String) : Option ℚ :=
  let t := pyTrim s
  let neg : Bool := match t with | '-' :: _ => true | _ => false
  let u : List Char := match t with
    | '-' :: rest => rest
    | '+' :: rest => rest
    | l => l
  match splitChar '.' u [] with
  | [a] =>
      if !a.isEmpty && a.all Char.isDigit then
        some (if neg then -(digitsToNat a : ℚ) else (digitsToNat a : ℚ))
      else none
  | [a, b] =>
      if !(a.isEmpty && b.isEmpty) && a.all Char.isDigit && b.all Char.isDigit then
        let q : ℚ := (digitsToNat (a ++ b) : ℚ) / ((10 : ℚ) ^ b.length)
        some (if neg then -q else q)
      else none
  | _ => none

/-- Line 158: `float(text or 0)` — `None` (or falsy) text yields `0.0`;
unparsable text raises `ValueError`, which escapes to the per-document
handler at line 212. -/
def valorBruto (txt : Option String) : Except String ℚ :=
  match txt with
  | none => .ok 0
  | some s =>
      if s == "" then .ok 0
      else
        match pyFloat? s with
        | some q => .ok q
        | none => .error ("could not convert string to float: " ++ s)

/-- Rendering of claim C5's sentence (NOT source code): numeric fields default
to zero when absent *or unparsable*, never failing the record. -/
def valorBrutoSpecC5 (txt : Option String) : ℚ :=
  match txt with
  | none => 0
  | some s => (pyFloat? s).getD 0

/-! ### Registry records and counterparty resolution (`main.py` 166-180) -/

/-- A row of the `clientes` table as used by the pipeline: `id`, `documento`
(may be null), `nome_razao`. -/
structure Cliente where
  id : Nat
  documento : Option String
  nomeRazao : String
deriving DecidableEq

/-- A row of the `projetos` table; only `id` is consulted (line 182). -/
structure Projeto where
  id : Nat
deriving DecidableEq

/-- Lines 167-172: normalize the invoice tax id to digits (empty when the id
is falsy) and scan `clientes` for the first record whose digits-only
`documento` equals it, guarded by the cleaned id being non-empty.  The match
result is the record's `id`. -/
def resolveTomador (clientes : List Cliente) (cnpjTomador : Option String) : Option Nat :=
  let clean := digitsOnly (cnpjTomador.getD "")
  (clientes.find? fun c => clean != "" && clean == digitsOnly (c.documento.getD "")).map Cliente.id

/-- Rendering of claim C2's sentence (NOT source code): tax-id exact match
first, else a case-insensitive substring match of the invoice's counterparty
name within a record's display name. -/
def resolveTomadorSpecC2 (clientes : List Cliente) (cnpjTomador nomeTomador : Option String) :
    Option Nat :=
  let clean := digitsOnly (cnpjTomador.getD "")
  match clientes.find? fun c => clean != "" && clean == digitsOnly (c.documento.getD "") with
  | some c => some c.id
  | none =>
      if truthy nomeTomador then
        (clientes.find? fun c =>
            strIn (pyLower (nomeTomador.getD "")) (pyLower c.nomeRazao)).map Cliente.id
      else none

/-! ### Period filter (`main.py` lines 147-156, `doc_type == "nfse"` branch)

Keep/drop decision for one document: `true` means the record survives
(no `continue`). -/

/-- Lines 148-156: with truthy explicit bounds and a truthy issue date,
compare the 10-character-normalized issue date inclusively against both
bounds (Python string `<=`); otherwise keep exactly when `mes.split("/")[1]`
occurs as a substring of the (defaulted) issue date. -/
def keepNota (dtInicio dtFim dataEmi : Option String) (mes : String) : Bool :=
  if truthy dtInicio && truthy dtFim && truthy dataEmi then
    let emi := pyTake (dataEmi.getD "") 10
    pyStrLe (dtInicio.getD "") emi && pyStrLe emi (dtFim.getD "")
  else
    strIn ((pySplit '/' mes).getD 1 "") (dataEmi.getD "")

/-- Rendering of claim C6's sentence (NOT source code): same explicit-bounds
behaviour, but the fallback matches the target *year-month* token
(`YYYY-MM`, built from `mes = "MM/YYYY"`) as a substring of the issue date. -/
def keepNotaSpecC6 (dtInicio dtFim dataEmi : Option String) (mes : String) : Bool :=
  if truthy dtInicio && truthy dtFim && truthy dataEmi then
    let emi := pyTake (dataEmi.getD "") 10
    pyStrLe (dtInicio.getD "") emi && pyStrLe emi (dtFim.getD "")
  else
    strIn ((pySplit '/' mes).getD 1 "" ++ "-" ++ (pySplit '/' mes).getD 0 "")
      (dataEmi.getD "")

/-! ### Persisted record (`main.py` lines 185-194) -/

/-- The `nota_db` dictionary upserted into the `notas` table. -/
structure NotaDb where
  numero : Option String
  dataEmissao : Option String
  tomadorId : Nat
  projetoId : Nat
  valor : ℚ
  iss : ℚ
  tipo : String
  status : String
deriving DecidableEq

/-- Lines 185-194: the record as built by the source — note the fixed
`"iss": 5.0`. -/
def buildNota (docType : String) (numero dataEmi : Option String)
    (tomadorId projetoId : Nat) (v : ℚ) : NotaDb :=
  { numero := numero
    dataEmissao := if truthy dataEmi then some (pyTake (dataEmi.getD "") 10) else none
    tomadorId := tomadorId
    projetoId := projetoId
    valor := v
    iss := 5
    tipo := if docType == "nfse" then "Prestada" else "Tomada"
    status := "Emitida" }

/-- Rendering of claim C3's sentence (NOT source code): the fixed default 5.0
when no effective rate is provided or the gross value is zero, else
`(tax value / gross value) * 100`. -/
def issSpecC3 (rateProvided : Bool) (taxValue grossValue : ℚ) : ℚ :=
  if rateProvided = false || grossValue = 0 then 5
  else taxValue / grossValue * 100

/-! ### Documents and the per-document step (`main.py` lines 132-213)

`ET.fromstring` plus the `get_xml_text` scans either raise (any structural
failure, caught per document at line 212) or yield the five extracted texts;
that outcome is carried on the document as `parsed`.  Database effects are
environment-supplied: `insertRes i` is the id granted by the `clientes`
insert for the document at position `i` (`none` = the insert raised and the
bare `except` at line 180 swallowed it), `upsertRes i` tells whether the
`notas` upsert at line 196 succeeded (a failure is caught at line 205 before
the success counter increments). -/

/-- Texts extracted from one document's XML (lines 144-161):
number, issue date, counterparty name, counterparty tax id, gross-value text. -/
structure Fields where
  numero : Option String
  dataEmi : Option String
  nomeTomador : Option String
  cnpjTomador : Option String
  valorText : Option String

/-- One document as the processing loop sees it: its decoded payload (absent
when decoding failed upstream) and the outcome of XML extraction. -/
structure DocP where
  xmlDecoded : Option String
  parsed : Except String Fields

/-- A fetched document with its `NSU` (line 113 reads `int(d.get("NSU", 0))`;
the server sends a numeric NSU, modelled as `Nat`). -/
structure DocN where
  nsu : Nat
  payload : DocP

/-- Run-scoped mutable state threaded through the document loop: the in-run
counterparty cache (line 179 appends auto-created records), the success
counter, and the successfully upserted records. -/
structure SyncSt where
  clientes : List Cliente
  imported : Nat
  notas : List NotaDb
deriving DecidableEq

/-- Lines 132-213 for a single document (paired with its position):
skip on a falsy payload; skip on an extraction failure (caught at line 212);
apply the nfse period filter; parse the gross value (an unparsable text
raises, also caught at line 212); resolve the counterparty by tax id;
auto-create one when the resolution is falsy and a name is present, appending
the created row to the cache; persist when both the counterparty and the
default-project ids are truthy, counting only successful upserts. -/
def docStep (docType mes : String) (dtI dtF : Option String) (projetos : List Projeto)
    (insertRes : Nat → Option Nat) (upsertRes : Nat → Bool)
    (st : SyncSt) (p : Nat × DocP) : SyncSt :=
  if truthy p.2.xmlDecoded = false then st
  else
    match p.2.parsed with
    | .error _ => st
    | .ok f =>
      if docType == "nfse" && !(keepNota dtI dtF f.dataEmi mes) then st
      else
        match valorBruto f.valorText with
        | .error _ => st
        | .ok v =>
          let tid0 := resolveTomador st.clientes f.cnpjTomador
          let upd :=
            if truthyNat tid0 = false && truthy f.nomeTomador then
              match insertRes p.1 with
              | some newId =>
                  (some newId,
                    st.clientes ++
                      [{ id := newId, documento := f.cnpjTomador,
                         nomeRazao := f.nomeTomador.getD "" }])
              | none => (tid0, st.clientes)
            else (tid0, st.clientes)
          let pid := (projetos.head?).map Projeto.id
          if truthyNat upd.1 && truthyNat pid then
            let nota := buildNota docType f.numero f.dataEmi ((upd.1).getD 0) (pid.getD 0) v
            if upsertRes p.1 then
              { clientes := upd.2, imported := st.imported + 1, notas := st.notas ++ [nota] }
            else
              { clientes := upd.2, imported := st.imported, notas := st.notas }
          else
            { clientes := upd.2, imported := st.imported, notas := st.notas }

/-! ### NSU fallback loop (`main.py` lines 98-116)

One run of the `while` loop.  The server's successive responses are
quantified over as a function of the round number (the loop consults them in
order, passing the current cursor; the response content is
server-controlled).  `fetch_dfe` returns a dictionary, never raises:
`failure` is `success: False`; `noData` is a success whose `data` or
`LoteDFe` is falsy; `batch` carries the `LoteDFe` list (an empty list is
falsy and handled like `noData`, exactly as line 107 does). -/

/-- Outcome of one `service.fetch_dfe(last_nsu)` call. -/
inductive FetchResult where
  | failure (err : String)
  | noData
  | batch (lote : List DocN)

/-- `max([int(d.get("NSU", 0)) for d in batch])` for a non-empty batch
(the fold's 0 base is absorbed, all NSUs being naturals). -/
def maxNsuD (l : List DocN) : Nat :=
  l.foldl (fun a d => max a d.nsu) 0

/-- Loop state: the cursor (`last_nsu`), the accumulated documents (`docs`),
the number of `fetch_dfe` calls made (`iterations`), and whether a `break`
has occurred. -/
structure LoopState where
  lastNsu : Nat
  docs : List DocN
  calls : Nat
  stopped : Bool

/-- `last_nsu = 0`, `docs = []`, `iterations = 0`. -/
def initLoop : LoopState := ⟨0, [], 0, false⟩

/-- Lines 101-116 with explicit fuel (`max_iterations` rounds remain): a
stopped state is final; otherwise fetch, `break` on failure / missing data /
empty batch, else extend `docs`, set the cursor to the batch maximum, and
`break` when the batch has fewer than 50 documents. -/
def nsuLoopGo (resps : Nat → FetchResult) : Nat → LoopState → LoopState
  | 0, s => s
  | fuel + 1, s =>
    if s.stopped then s
    else
      match resps s.calls with
      | .failure _ => { s with calls := s.calls + 1, stopped := true }
      | .noData => { s with calls := s.calls + 1, stopped := true }
      | .batch b =>
        if b.isEmpty then { s with calls := s.calls + 1, stopped := true }
        else
          let s2 : LoopState := ⟨maxNsuD b, s.docs ++ b, s.calls + 1, false⟩
          if b.length < 50 then { s2 with stopped := true }
          else nsuLoopGo resps fuel s2

/-- The whole fallback loop: `max_iterations = 20` starting from `initLoop`. -/
def nsuLoop (resps : Nat → FetchResult) : LoopState :=
  nsuLoopGo resps 20 initLoop

/-- The fetch cursor after round `i` (unchanged once the loop has stopped). -/
def cursorAt (resps : Nat → FetchResult) (i : Nat) : Nat :=
  (nsuLoopGo resps i initLoop).lastNsu

/-- The documents observed during the first `i` rounds. -/
def seenAt (resps : Nat → FetchResult) (i : Nat) : List DocN :=
  (nsuLoopGo resps i initLoop).docs

/-- The server contract assumed by the pagination protocol: every document of
a returned batch carries an NSU strictly greater than the cursor the round
started from. -/
def respOk (resps : Nat → FetchResult) : Prop :=
  ∀ i b, resps i = .batch b → ∀ d ∈ b, cursorAt resps i < d.nsu

/-! ### The orchestrating run (`main.py` lines 64-221, `process_sync`)

External collaborators are gathered into `Env`.  `NFSeService(...)` never
raises (see `extractCnpj`), registry loads may raise, both fetch strategies
return dictionaries, and the per-document work is caught at line 212 — so the
only exceptions reaching the `except` at line 219 are the registry loads and
(when no explicit dates were supplied) the month derivation. -/

/-- Outcome of `service.search_by_date` as consumed at line 92: a success
carries its `LoteDFe` list (possibly empty, which is falsy there). -/
inductive SearchRes where
  | ok (lote : List DocN)
  | fail (err : String)

/-- Terminal and intermediate run states of `SYNC_STATE["status"]`. -/
inductive RunStatus where
  | running
  | done
  | error
deriving DecidableEq

/-- The collaborators one run interacts with. -/
structure Env where
  clientesRes : Except String (List Cliente)
  projetosRes : Except String (List Projeto)
  search : SearchRes
  nsuResps : Nat → FetchResult
  nfeRes : Except String (List DocN)
  insertRes : Nat → Option Nat
  upsertRes : Nat → Bool

/-- `Except` failure test. -/
def isErrB {α : Type} : Except String α → Bool
  | .error _ => true
  | .ok _ => false

/-- `process_sync` reduced to its terminal status and document-loop state:
load registries (raising → `error`); for `nfse`, derive the date bounds from
`mes` when not both supplied (raising → `error`), try the date search, fall
back to the NSU loop when it fails or yields nothing; for `nfe`, one SOAP
call; fold the document loop; finish `done`. -/
def processSync (env : Env) (mes : String) (dtInicio dtFim : Option String)
    (docType : String) : RunStatus × SyncSt :=
  match env.clientesRes with
  | .error _ => (.error, ⟨[], 0, []⟩)
  | .ok clientes =>
    match env.projetosRes with
    | .error _ => (.error, ⟨[], 0, []⟩)
    | .ok projetos =>
      if docType == "nfse" then
        let dts : Except String (Option String × Option String) :=
          if truthy dtInicio && truthy dtFim then .ok (dtInicio, dtFim)
          else (deriveDates mes).map fun p => (some p.1, some p.2)
        match dts with
        | .error _ => (.error, ⟨clientes, 0, []⟩)
        | .ok (di, df) =>
          let docs : List DocN :=
            match env.search with
            | .ok lote => if lote.isEmpty then (nsuLoop env.nsuResps).docs else lote
            | .fail _ => (nsuLoop env.nsuResps).docs
          let final := (docs.map DocN.payload).enum.foldl
            (docStep "nfse" mes di df projetos env.insertRes env.upsertRes)
            ⟨clientes, 0, []⟩
          (.done, final)
      else if docType == "nfe" then
        let docs : List DocN := match env.nfeRes with | .ok lote => lote | .error _ => []
        let final := (docs.map DocN.payload).enum.foldl
          (docStep docType mes dtInicio dtFim projetos env.insertRes env.upsertRes)
          ⟨clientes, 0, []⟩
        (.done, final)
      else (.done, ⟨clientes, 0, []⟩)

/-! ### Payload decoding (`utils/nfse.py` lines 88-104 and 155-169)

`base64.b64decode`, `gzip.decompress(..).decode("utf-8")` and
`bytes.decode("utf-8")` are collaborators abstracted as `Codecs`; the claims
here are about the surrounding control flow, which is independent of the
codec semantics. -/

/-- The three decoding primitives, each reporting failure as `Except`
(the raised exception's message). -/
structure Codecs where
  b64 : String → Except String (List Nat)
  gunzipUtf8 : List Nat → Except String String
  utf8 : List Nat → Except String String

/-- One document of a `LoteDFe` response as decoded in `utils/nfse.py`. -/
structure DocF where
  arquivoXml : Option String
  xmlDecoded : Option String
  decodeError : Option String
deriving DecidableEq

/-- Lines 95-99 / 162-166: base64-decode, speculatively gunzip, and on a
decompression failure treat the decoded bytes as plain text (whose own
failure propagates to the enclosing handler, like a base64 failure). -/
def decodeXml (k : Codecs) (xmlB64 : String) : Except String String :=
  match k.b64 xmlB64 with
  | .error e => .error e
  | .ok bytes =>
    match k.gunzipUtf8 bytes with
    | .ok s => .ok s
    | .error _ => k.utf8 bytes

/-- `fetch_dfe`, lines 91-102: a truthy `ArquivoXml` is decoded; success
stores `xml_decoded`, failure stores `decode_error` on the document. -/
def processDocFetchDfe (k : Codecs) (d : DocF) : DocF :=
  match d.arquivoXml with
  | none => d
  | some x =>
    if x == "" then d
    else
      match decodeXml k x with
      | .ok s => { d with xmlDecoded := some s }
      | .error e => { d with decodeError := some e }

/-- `search_by_date`, lines 158-168: same decoding, but the handler is
`except: pass` — a failure leaves the document unchanged. -/
def processDocSearch (k : Codecs) (d : DocF) : DocF :=
  match d.arquivoXml with
  | none => d
  | some x =>
    if x == "" then d
    else
      match decodeXml k x with
      | .ok s => { d with xmlDecoded := some s }
      | .error _ => d

/-- `fetch_dfe`'s `processed_lote`: every document is appended. -/
def processLoteFetchDfe (k : Codecs) (lote : List DocF) : List DocF :=
  lote.map (processDocFetchDfe k)

/-- `search_by_date`'s `processed`: every document is appended. -/
def processLoteSearch (k : Codecs) (lote : List DocF) : List DocF :=
  lote.map (processDocSearch k)

/-! ### Concrete evaluation data

Closed inputs on which the claims are evaluated (counterexamples and witness
instantiations). -/

/-- A fetched document carrying only an NSU (its payload is irrelevant to the
cursor logic). -/
def mkDoc (n : Nat) : DocN :=
  ⟨n, ⟨none, .ok ⟨none, none, none, none, none⟩⟩⟩

/-- A full first page whose NSUs run 100..149. -/
def batchC1 : List DocN :=
  (List.range 50).map fun j => mkDoc (100 + j)

/-- Response sequence refuting cursor monotonicity: a full page with maximum
NSU 149, then a short batch whose only NSU is 3. -/
def respsC1x : Nat → FetchResult := fun i =>
  match i with
  | 0 => .batch batchC1
  | 1 => .batch [mkDoc 3]
  | _ + 2 => .noData

/-- Well-behaved response sequence: one fresh document, then end of queue. -/
def respsC1w : Nat → FetchResult := fun i =>
  match i with
  | 0 => .batch [mkDoc 5]
  | _ + 1 => .noData

/-- Response sequence for the termination witness: one full page, then end of
queue. -/
def resps8w : Nat → FetchResult := fun i =>
  match i with
  | 0 => .batch ((List.range 50).map mkDoc)
  | _ + 1 => .noData

/-- A run in which every fetch strategy fails. -/
def envC4 : Env :=
  { clientesRes := .ok []
    projetosRes := .ok []
    search := .fail "HTTP 500"
    nsuResps := fun _ => .failure "HTTP 500"
    nfeRes := .error "HTTP 500"
    insertRes := fun _ => none
    upsertRes := fun _ => true }

/-- A run whose single document resolves and persists successfully. -/
def envC3 : Env :=
  { clientesRes := .ok [⟨1, some "12345678000195", "ACME LTDA"⟩]
    projetosRes := .ok [⟨1⟩]
    search := .ok [⟨1, ⟨some "xml", .ok
      ⟨some "1", some "2026-02-10", some "ACME LTDA",
       some "12.345.678/0001-95", some "100"⟩⟩⟩]
    nsuResps := fun _ => .noData
    nfeRes := .error "unused"
    insertRes := fun _ => none
    upsertRes := fun _ => true }

/-- Codecs on which every base64 decode fails. -/
def kBadC7 : Codecs :=
  { b64 := fun s => .error ("Invalid base64: " ++ s)
    gunzipUtf8 := fun _ => .error "Not a gzipped file"
    utf8 := fun _ => .ok "" }

/-- Codecs decoding `"QQ=="` to one byte that is not gzipped but is valid
UTF-8, and failing on everything else. -/
def kW7 : Codecs :=
  { b64 := fun s => if s == "QQ==" then .ok [65] else .error ("Invalid base64: " ++ s)
    gunzipUtf8 := fun _ => .error "Not a gzipped file"
    utf8 := fun bs => if bs == [65] then .ok "A" else .error "invalid utf-8" }

/-! ## Theorems -/

/-! ### Helper lemmas -/

theorem extractCnpj_length (load : P12Load) (c : String)
    (h : extractCnpj load = some c) : c.length = 14 := by
  cases load with
  | failure e => simp [extractCnpj] at h
  | ok subject =>
    simp only [extractCnpj] at h
    rw [List.findSome?_eq_some_iff] at h
    obtain ⟨l1, a, l2, -, ha, -⟩ := h
    by_cases hoid : (a.oid == commonNameOid) = true
    · simp only [hoid, if_true] at ha
      rw [List.findSome?_eq_some_iff] at ha
      obtain ⟨m1, part, m2, -, hp, -⟩ := ha
      by_cases hl : ((digitsOnly part).length == 14) = true
      · simp only [hl, if_true, Option.some.injEq] at hp
        subst hp
        simpa using hl
      · simp [hl] at hp
    · simp [hoid] at ha

theorem logAppendOne_length_le (logs : List String) (e : String) (h : logs.length ≤ 50) :
    (logAppendOne logs e).length ≤ 50 := by
  simp only [logAppendOne]
  split
  · simp only [List.length_drop, List.length_append, List.length_cons, List.length_nil]
    omega
  · next hx =>
    simp only [List.length_append, List.length_cons, List.length_nil] at hx ⊢
    omega

/-! ### Claim theorems -/

/-- Claim C9 (confirmed): constructing `NFSeService` is total — an unopenable
bundle, a wrong passphrase, or a subject without a 14-digit substring all
leave `cnpj = None` instead of raising — and, with a valid token, the 400
rejection of `POST /sincronizar` occurs exactly when that `cnpj` attribute is
`None` (the extracted identifier always has 14 characters, so the endpoint's
falsiness check coincides with the `None` check). -/
theorem constructor_total_400_iff_no_cnpj (tok : String) (load : P12Load) :
    disparar tok tok load = .error 400 ↔ extractCnpj load = none := by
  unfold disparar
  simp only [bne_self_eq_false, Bool.false_eq_true, if_false]
  cases h : extractCnpj load with
  | none => simp
  | some c =>
    have hlen : c.length = 14 := extractCnpj_length load c h
    have hne : c ≠ "" := by
      intro hc
      subst hc
      simp at hlen
    have hbe : (c == "") = false := by
      simpa using hne
    simp [hbe]

/-- Claim C10 (confirmed): starting from a log of at most 50 entries, every
sequence of `log_msg` calls keeps the log at 50 entries or fewer, and when the
bound is hit the call drops exactly the oldest entry, keeping the most recent
ones in order and appending the new entry last. -/
theorem log_bounded_and_drops_oldest (logs es : List String) (h : logs.length ≤ 50) :
    (es.foldl logAppendOne logs).length ≤ 50
  ∧ (logs.length = 50 → ∀ e, logAppendOne logs e = logs.drop 1 ++ [e]) := by
  constructor
  · induction es generalizing logs with
    | nil => exact h
    | cons e es ih => exact ih _ (logAppendOne_length_le logs e h)
  · intro h50 e
    unfold logAppendOne
    have hgt : 50 < (logs ++ [e]).length := by
      simp [h50]
    simp only [hgt, if_true]
    exact List.drop_append_of_le_length (by omega)

/-- Witness for C10 at a log holding exactly 50 entries. -/
theorem log_bounded_and_drops_oldest_witness :
    ((["a"].foldl logAppendOne (List.replicate 50 "x")).length ≤ 50)
  ∧ logAppendOne (List.replicate 50 "x") "a" = (List.replicate 50 "x").drop 1 ++ ["a"] :=
  ⟨(log_bounded_and_drops_oldest (List.replicate 50 "x") ["a"] (by decide)).1,
   (log_bounded_and_drops_oldest (List.replicate 50 "x") ["a"] (by decide)).2 (by decide) "a"⟩

/-- Any note appended by one document step has the fixed `iss` value. -/
theorem docStep_notas_iss (docType mes : String) (dtI dtF : Option String)
    (pr : List Projeto) (ins : Nat → Option Nat) (up : Nat → Bool)
    (st : SyncSt) (p : Nat × DocP)
    (h : ∀ n ∈ st.notas, n.iss = 5) :
    ∀ n ∈ (docStep docType mes dtI dtF pr ins up st p).notas, n.iss = 5 := by
  intro n hn
  simp only [docStep] at hn
  repeat' split at hn
  all_goals first
    | exact h n hn
    | (rcases List.mem_append.mp hn with hn2 | hn2
       · exact h n hn2
       · rw [List.mem_singleton.mp hn2]
         rfl)

theorem foldl_docStep_iss (docType mes : String) (dtI dtF : Option String)
    (pr : List Projeto) (ins : Nat → Option Nat) (up : Nat → Bool)
    (l : List (Nat × DocP)) :
    ∀ st : SyncSt, (∀ n ∈ st.notas, n.iss = 5) →
      ∀ n ∈ (l.foldl (docStep docType mes dtI dtF pr ins up) st).notas, n.iss = 5 := by
  induction l with
  | nil => intro st h; exact h
  | cons p l ih =>
    intro st h
    exact ih _ (docStep_notas_iss docType mes dtI dtF pr ins up st p h)

/-- Claim C2 (amended): counterparty resolution normalizes the invoice tax id
to digits only and scans for an exact digits-only match, guarded by the
cleaned id being non-empty — any resolution it returns is such a tax-id
match, so a tax-id match trivially beats everything; but there is *no*
name-based fallback: with no usable tax id the scan returns no match
(regardless of any name similarity), and the code instead proceeds to
auto-create a new counterparty. -/
theorem resolveTomador_taxid_only (clientes : List Cliente) (cnpj : Option String) :
    (∀ i, resolveTomador clientes cnpj = some i →
        ∃ c, c ∈ clientes ∧ c.id = i ∧
          digitsOnly (cnpj.getD "") ≠ "" ∧
          digitsOnly (c.documento.getD "") = digitsOnly (cnpj.getD ""))
  ∧ (digitsOnly (cnpj.getD "") = "" → resolveTomador clientes cnpj = none) := by
  constructor
  · intro i h
    simp only [resolveTomador, Option.map_eq_some'] at h
    obtain ⟨c, hc, hid⟩ := h
    have hp := List.find?_some hc
    simp only [Bool.and_eq_true, bne_iff_ne, beq_iff_eq, ne_eq] at hp
    exact ⟨c, List.mem_of_find?_eq_some hc, hid, hp.1, hp.2.symm⟩
  · intro h
    simp only [resolveTomador, Option.map_eq_none']
    rw [List.find?_eq_none]
    intro c hcmem
    simp [h]

/-- Witness for C2's amended statement: a formatted registry tax id matches
the invoice's digits-only id. -/
theorem resolveTomador_taxid_only_witness :
    ∃ c, c ∈ [(⟨7, some "12.345.678/0001-95", "Fornecedor X"⟩ : Cliente)] ∧ c.id = 7 ∧
      digitsOnly ((some "12345678000195" : Option String).getD "") ≠ "" ∧
      digitsOnly (c.documento.getD "") =
        digitsOnly ((some "12345678000195" : Option String).getD "") :=
  (resolveTomador_taxid_only [⟨7, some "12.345.678/0001-95", "Fornecedor X"⟩]
    (some "12345678000195")).1 7 (by decide)

/-- Claim C2 counterexample: an invoice with no tax id whose counterparty name
matches a registry record case-insensitively.  The claimed algorithm resolves
it to that record; the code resolves nothing (and would auto-create a
duplicate). -/
theorem resolveTomador_no_name_fallback_counterexample :
    resolveTomador [⟨1, none, "ACME LTDA"⟩] none = none
  ∧ resolveTomadorSpecC2 [⟨1, none, "ACME LTDA"⟩] none (some "acme ltda") = some 1 := by
  decide

/-- Claim C3 (amended): every invoice persisted by a run stores the fixed tax
rate 5.0, unconditionally — the rate is never computed from tax and gross
values, so a zero gross value in particular yields 5.0 and never a division
error. -/
theorem persisted_iss_always_five (env : Env) (mes : String) (dtI dtF : Option String)
    (docType : String) :
    ∀ n ∈ (processSync env mes dtI dtF docType).2.notas, n.iss = 5 := by
  simp only [processSync]
  cases env.clientesRes with
  | error e => intro n hn; simp at hn
  | ok clientes =>
    cases env.projetosRes with
    | error e => intro n hn; simp at hn
    | ok projetos =>
      by_cases h1 : (docType == "nfse") = true
      · simp only [h1, if_true]
        cases hdts : (if truthy dtI && truthy dtF then Except.ok (dtI, dtF)
            else (deriveDates mes).map fun p => (some p.1, some p.2)) with
        | error e => intro n hn; simp at hn
        | ok didf =>
          obtain ⟨di, df⟩ := didf
          exact foldl_docStep_iss "nfse" mes di df projetos env.insertRes env.upsertRes _
            ⟨clientes, 0, []⟩ (by simp)
      · simp only [h1, if_false]
        by_cases h2 : (docType == "nfe") = true
        · simp only [h2, if_true]
          exact foldl_docStep_iss docType mes dtI dtF projetos env.insertRes env.upsertRes _
            ⟨clientes, 0, []⟩ (by simp)
        · simp only [h2, if_false]
          intro n hn
          simp at hn

/-- Witness for C3's amended statement: the note persisted by a successful
one-document run carries `iss = 5`. -/
theorem persisted_iss_always_five_witness :
    (buildNota "nfse" (some "1") (some "2026-02-10") 1 1 100).iss = 5 :=
  persisted_iss_always_five envC3 "02/2026" none none "nfse"
    (buildNota "nfse" (some "1") (some "2026-02-10") 1 1 100) (by decide)

/-- Claim C3 counterexample: with an effective rate available and gross value
200, tax value 30, the claimed formula stores 15.0, but the code stores the
constant 5.0. -/
theorem iss_not_computed_counterexample :
    issSpecC3 true 30 200 = 15
  ∧ (buildNota "nfse" (some "9") (some "2026-02-10") 1 1 200).iss = 5
  ∧ (15 : ℚ) ≠ 5 := by
  refine ⟨by norm_num [issSpecC3], rfl, by norm_num⟩

/-- Claim C5 (amended): the gross value is set to zero when the XML text is
absent, but a present-and-unparsable text raises `ValueError`; the raise is
caught by the per-document handler, so the record is skipped (the loop state
is unchanged) rather than stored with value zero, and the batch continues. -/
theorem valor_absent_zero_unparsable_error :
    (valorBruto none = .ok 0)
  ∧ (∀ s : String, s ≠ "" → pyFloat? s = none →
       valorBruto (some s) = .error ("could not convert string to float: " ++ s))
  ∧ (∀ (docType mes : String) (dI dF : Option String) (pr : List Projeto)
       (ins : Nat → Option Nat) (up : Nat → Bool) (st : SyncSt) (i : Nat)
       (d : DocP) (f : Fields) (e : String),
       truthy d.xmlDecoded = true → d.parsed = .ok f →
       (docType == "nfse" && !(keepNota dI dF f.dataEmi mes)) = false →
       valorBruto f.valorText = .error e →
       docStep docType mes dI dF pr ins up st (i, d) = st) := by
  refine ⟨rfl, ?_, ?_⟩
  · intro s hne hp
    have hbe : (s == "") = false := by simpa using hne
    simp [valorBruto, hbe, hp]
  · intro docType mes dI dF pr ins up st i d f e h1 h2 h3 h4
    simp [docStep, h1, h2, h3, h4]

/-- Witness for C5's amended statement at the unparsable text `"abc"`. -/
theorem valor_absent_zero_unparsable_error_witness :
    valorBruto (some "abc") = .error "could not convert string to float: abc"
  ∧ docStep "nfse" "02/2026" (some "2026-02-01") (some "2026-02-28") []
      (fun _ => none) (fun _ => false) ⟨[], 0, []⟩
      (0, ⟨some "x", .ok ⟨some "1", some "2026-02-10", some "N", none, some "abc"⟩⟩) =
      ⟨[], 0, []⟩ :=
  ⟨(valor_absent_zero_unparsable_error).2.1 "abc" (by decide) (by decide),
   (valor_absent_zero_unparsable_error).2.2 "nfse" "02/2026" (some "2026-02-01")
     (some "2026-02-28") [] (fun _ => none) (fun _ => false) ⟨[], 0, []⟩ 0
     ⟨some "x", .ok ⟨some "1", some "2026-02-10", some "N", none, some "abc"⟩⟩
     ⟨some "1", some "2026-02-10", some "N", none, some "abc"⟩
     "could not convert string to float: abc"
     (by decide) rfl (by decide) rfl⟩

/-- Claim C5 counterexample: at the unparsable text `"abc"` the claim promises
the value zero and a kept record, but `float("abc")` raises, sending the
document to the per-document error handler. -/
theorem valor_unparsable_not_zero_counterexample :
    valorBrutoSpecC5 (some "abc") = 0
  ∧ valorBruto (some "abc") = .error "could not convert string to float: abc" :=
  ⟨by decide, rfl⟩

/-- Claim C6 (amended): with explicit start/end dates the period filter is
inclusive on both bounds of the 10-character-normalized issue date
(`2026-02-28` is kept and `2026-03-01` dropped for bounds
`2026-02-01`/`2026-02-28`); but in the branch without explicit dates the
record is kept exactly when the target *year* (`mes.split("/")[1]`) occurs as
a substring of the issue date — not the year-month token. -/
theorem period_filter_bounds_and_year_token :
    (keepNota (some "2026-02-01") (some "2026-02-28") (some "2026-02-28") "02/2026" = true)
  ∧ (keepNota (some "2026-02-01") (some "2026-02-28") (some "2026-03-01") "02/2026" = false)
  ∧ (∀ mm yyyy de : String, pySplit '/' (mm ++ "/" ++ yyyy) = [mm, yyyy] →
       keepNota none none (some de) (mm ++ "/" ++ yyyy) = strIn yyyy de) := by
  refine ⟨by decide, by decide, ?_⟩
  intro mm yyyy de h
  simp [keepNota, truthy, h]

/-- Witness for C6's amended statement: the no-explicit-dates branch consults
the year token. -/
theorem period_filter_bounds_and_year_token_witness :
    keepNota none none (some "2026-03-15") ("02" ++ "/" ++ "2026") = strIn "2026" "2026-03-15" :=
  (period_filter_bounds_and_year_token).2.2 "02" "2026" "2026-03-15" (by decide)

/-- Claim C6 counterexample: for target `02/2026` and issue date `2026-03-15`
the claimed year-month-token filter drops the record, but the code keeps it,
because the year `2026` alone is matched. -/
theorem period_filter_year_not_yearmonth_counterexample :
    keepNota none none (some "2026-03-15") "02/2026" = true
  ∧ keepNotaSpecC6 none none (some "2026-03-15") "02/2026" = false := by
  decide

/-- Claim C7 (amended): in both retrieval strategies the payload is
base64-decoded and then speculatively gunzipped, the base64-decoded bytes
being handed to the plain-text decoder when decompression fails, and a
failing document never aborts the batch (every document is passed through);
but the failure is recorded on the document (`decode_error`) only in
`fetch_dfe` — `search_by_date` swallows it silently, leaving the document
unchanged. -/
theorem decode_fallback_and_recording (k : Codecs) (d : DocF) (x : String)
    (hx : d.arquivoXml = some x) (hne : (x == "") = false) :
    (∀ e, decodeXml k x = .error e →
        (processDocFetchDfe k d).decodeError = some e ∧ processDocSearch k d = d)
  ∧ (∀ bs e, k.b64 x = .ok bs → k.gunzipUtf8 bs = .error e → decodeXml k x = k.utf8 bs)
  ∧ (∀ lote, (processLoteFetchDfe k lote).length = lote.length
       ∧ (processLoteSearch k lote).length = lote.length) := by
  refine ⟨?_, ?_, ?_⟩
  · intro e he
    constructor
    · simp [processDocFetchDfe, hx, hne, he]
    · simp [processDocSearch, hx, hne, he]
  · intro bs e hb hg
    simp [decodeXml, hb, hg]
  · intro lote
    constructor
    · simp [processLoteFetchDfe]
    · simp [processLoteSearch]

/-- Witness for C7's amended statement: a base64 failure is recorded by
`fetch_dfe` but not by `search_by_date`, and a gunzip failure falls back to
the plain-text decoder. -/
theorem decode_fallback_and_recording_witness :
    ((processDocFetchDfe kW7 ⟨some "!!", none, none⟩).decodeError = some "Invalid base64: !!"
      ∧ processDocSearch kW7 ⟨some "!!", none, none⟩ = ⟨some "!!", none, none⟩)
  ∧ decodeXml kW7 "QQ==" = kW7.utf8 [65] :=
  ⟨(decode_fallback_and_recording kW7 ⟨some "!!", none, none⟩ "!!" rfl (by decide)).1
      "Invalid base64: !!" rfl,
   (decode_fallback_and_recording kW7 ⟨some "QQ==", none, none⟩ "QQ==" rfl (by decide)).2.1
      [65] "Not a gzipped file" rfl rfl⟩

/-- Claim C7 counterexample: on a document whose payload fails base64
decoding, `fetch_dfe` records `decode_error` but `search_by_date` leaves the
document untouched — the failure is not recorded in both strategies. -/
theorem search_by_date_silent_decode_counterexample :
    isErrB (decodeXml kBadC7 "xx") = true
  ∧ (processDocFetchDfe kBadC7 ⟨some "xx", none, none⟩).decodeError = some "Invalid base64: xx"
  ∧ processDocSearch kBadC7 ⟨some "xx", none, none⟩ = ⟨some "xx", none, none⟩
  ∧ (processDocSearch kBadC7 ⟨some "xx", none, none⟩).decodeError = none :=
  ⟨rfl, rfl, rfl, rfl⟩

/-- Claim C4 (amended): the terminal run status is `error` exactly when a
registry load raises or — for `nfse` without both explicit dates — the
reference month cannot be parsed into date bounds.  An invalid credential
(every `fetch_dfe` call failing with its CNPJ error) and exhaustion of all
fetch strategies end the run in `done`; per-document failures never escalate
(the document loop cannot affect the status). -/
theorem status_error_iff_setup_failure (env : Env) (mes : String) (dtI dtF : Option String)
    (docType : String) :
    (processSync env mes dtI dtF docType).1 = RunStatus.error ↔
      (isErrB env.clientesRes = true ∨ isErrB env.projetosRes = true ∨
        ((docType == "nfse") = true ∧ (truthy dtI && truthy dtF) = false ∧
          isErrB (deriveDates mes) = true)) := by
  simp only [processSync]
  cases env.clientesRes with
  | error e => simp [isErrB]
  | ok clientes =>
    cases env.projetosRes with
    | error e => simp [isErrB]
    | ok projetos =>
      simp only [isErrB]
      by_cases h1 : (docType == "nfse") = true
      · simp only [h1, if_true]
        cases h2 : (truthy dtI && truthy dtF) with
        | true =>
          simp [h2]
        | false =>
          simp only [h2, Bool.false_eq_true, if_false]
          cases hd : deriveDates mes with
          | error e => simp [Except.map, h1, isErrB]
          | ok pq => simp [Except.map, h1, h2, isErrB]
      · have h1f : (docType == "nfse") = false := by
          cases hb : (docType == "nfse") <;> simp_all
        simp only [h1f, Bool.false_eq_true, if_false]
        by_cases h3 : (docType == "nfe") = true
        · simp [h3, h1f]
        · have h3f : (docType == "nfe") = false := by
            cases hb : (docType == "nfe") <;> simp_all
          simp [h3f, h1f]

/-- Claim C4 counterexample: a run in which the date search fails and every
NSU round fails — all fetch strategies exhausted — still terminates `done`
(with zero imports), where the claim requires `error`. -/
theorem fetch_exhaustion_yields_done_counterexample :
    (processSync envC4 "02/2026" none none "nfse").1 = RunStatus.done
  ∧ (processSync envC4 "02/2026" none none "nfse").2.imported = 0 :=
  ⟨rfl, rfl⟩

/-! ### NSU loop lemmas -/

theorem nsuLoopGo_stopped (resps : Nat → FetchResult) (fuel : Nat) (s : LoopState)
    (h : s.stopped = true) : nsuLoopGo resps fuel s = s := by
  cases fuel with
  | zero => rfl
  | succ f => simp [nsuLoopGo, h]

theorem nsuLoopGo_add (resps : Nat → FetchResult) (m n : Nat) :
    ∀ s, nsuLoopGo resps (m + n) s = nsuLoopGo resps n (nsuLoopGo resps m s) := by
  induction m with
  | zero =>
    intro s
    rw [Nat.zero_add]
    rfl
  | succ m ih =>
    intro s
    have hsa : m + 1 + n = (m + n) + 1 := by omega
    rw [hsa]
    cases hs : s.stopped
    · show nsuLoopGo resps ((m + n) + 1) s = nsuLoopGo resps n (nsuLoopGo resps (m + 1) s)
      cases hr : resps s.calls with
      | failure err =>
        simp [nsuLoopGo, hs, hr, nsuLoopGo_stopped]
      | noData =>
        simp [nsuLoopGo, hs, hr, nsuLoopGo_stopped]
      | batch b =>
        cases hbe : b.isEmpty
        · by_cases hlen : b.length < 50
          · simp [nsuLoopGo, hs, hr, hbe, hlen, nsuLoopGo_stopped]
          · simp only [nsuLoopGo, hs, hr, hbe, hlen, Bool.false_eq_true, if_false, if_true]
            exact ih ⟨maxNsuD b, s.docs ++ b, s.calls + 1, false⟩
        · simp [nsuLoopGo, hs, hr, hbe, nsuLoopGo_stopped]
    · rw [nsuLoopGo_stopped resps _ s hs, nsuLoopGo_stopped resps _ s hs,
        nsuLoopGo_stopped resps _ s hs]

theorem nsuLoopGo_calls_le (resps : Nat → FetchResult) :
    ∀ fuel s, (nsuLoopGo resps fuel s).calls ≤ s.calls + fuel := by
  intro fuel
  induction fuel with
  | zero =>
    intro s
    simp [nsuLoopGo]
  | succ f ih =>
    intro s
    cases hs : s.stopped
    · cases hr : resps s.calls with
      | failure err => simp [nsuLoopGo, hs, hr]
      | noData => simp [nsuLoopGo, hs, hr]
      | batch b =>
        cases hbe : b.isEmpty
        · by_cases hlen : b.length < 50
          · simp [nsuLoopGo, hs, hr, hbe, hlen]
          · simp only [nsuLoopGo, hs, hr, hbe, hlen, Bool.false_eq_true, if_false, if_true]
            have := ih ⟨maxNsuD b, s.docs ++ b, s.calls + 1, false⟩
            simp at this
            omega
        · simp [nsuLoopGo, hs, hr, hbe]
    · rw [nsuLoopGo_stopped resps _ s hs]
      omega

theorem nsuLoopGo_nonfinal (resps : Nat → FetchResult) :
    ∀ fuel s i, s.stopped = false → s.calls ≤ i →
      i + 1 < (nsuLoopGo resps fuel s).calls →
      ∃ b, resps i = .batch b ∧ b.isEmpty = false ∧ 50 ≤ b.length := by
  intro fuel
  induction fuel with
  | zero =>
    intro s i hs hle hlt
    simp [nsuLoopGo] at hlt
    omega
  | succ f ih =>
    intro s i hs hle hlt
    cases hr : resps s.calls with
    | failure err =>
      simp [nsuLoopGo, hs, hr] at hlt
      omega
    | noData =>
      simp [nsuLoopGo, hs, hr] at hlt
      omega
    | batch b =>
      cases hbe : b.isEmpty
      · by_cases hlen : b.length < 50
        · simp [nsuLoopGo, hs, hr, hbe, hlen] at hlt
          omega
        · by_cases hi : i = s.calls
          · subst hi
            exact ⟨b, hr, hbe, by omega⟩
          · simp only [nsuLoopGo, hs, hr, hbe, hlen, Bool.false_eq_true, if_false,
              if_true] at hlt
            exact ih ⟨maxNsuD b, s.docs ++ b, s.calls + 1, false⟩ i rfl (by simp; omega) hlt
      · simp [nsuLoopGo, hs, hr, hbe] at hlt
        omega

theorem nsuLoopGo_active (resps : Nat → FetchResult) :
    ∀ fuel s, (nsuLoopGo resps fuel s).stopped = false →
      (nsuLoopGo resps fuel s).calls = s.calls + fuel := by
  intro fuel
  induction fuel with
  | zero =>
    intro s _
    rfl
  | succ f ih =>
    intro s h
    cases hs : s.stopped
    · cases hr : resps s.calls with
      | failure err => simp [nsuLoopGo, hs, hr] at h
      | noData => simp [nsuLoopGo, hs, hr] at h
      | batch b =>
        cases hbe : b.isEmpty
        · by_cases hlen : b.length < 50
          · simp [nsuLoopGo, hs, hr, hbe, hlen] at h
          · simp only [nsuLoopGo, hs, hr, hbe, hlen, Bool.false_eq_true, if_false,
              if_true] at h ⊢
            have := ih ⟨maxNsuD b, s.docs ++ b, s.calls + 1, false⟩ h
            simp at this
            omega
        · simp [nsuLoopGo, hs, hr, hbe] at h
    · rw [nsuLoopGo_stopped resps _ s hs] at h
      rw [hs] at h
      cases h

/-! ### maxNsuD lemmas -/

theorem foldl_max_init (l : List DocN) (a : Nat) :
    l.foldl (fun x d => max x d.nsu) a = max a (maxNsuD l) := by
  induction l generalizing a with
  | nil => simp [maxNsuD]
  | cons d l ih =>
    show (l.foldl (fun x d => max x d.nsu) (max a d.nsu)) = _
    rw [ih (max a d.nsu)]
    show _ = max a ((d :: l).foldl (fun x d => max x d.nsu) 0)
    have : ((d :: l).foldl (fun x d => max x d.nsu) 0) = l.foldl (fun x d => max x d.nsu) (max 0 d.nsu) := rfl
    rw [this, ih (max 0 d.nsu), Nat.zero_max, Nat.max_assoc]

theorem maxNsuD_cons (d : DocN) (l : List DocN) :
    maxNsuD (d :: l) = max d.nsu (maxNsuD l) := by
  show l.foldl (fun x d => max x d.nsu) (max 0 d.nsu) = _
  rw [foldl_max_init, Nat.zero_max]

theorem le_maxNsuD {d : DocN} {l : List DocN} (h : d ∈ l) : d.nsu ≤ maxNsuD l := by
  induction l with
  | nil => cases h
  | cons c l ih =>
    rw [maxNsuD_cons]
    rcases List.mem_cons.mp h with h1 | h1
    · subst h1
      exact Nat.le_max_left _ _
    · exact le_trans (ih h1) (Nat.le_max_right _ _)

theorem maxNsuD_append (l1 l2 : List DocN) :
    maxNsuD (l1 ++ l2) = max (maxNsuD l1) (maxNsuD l2) := by
  show (l1 ++ l2).foldl (fun x d => max x d.nsu) 0 = _
  rw [List.foldl_append, foldl_max_init]
  rfl

theorem seenAt_grows (resps : Nat → FetchResult) (i : Nat) :
    ∃ t, seenAt resps (i + 1) = seenAt resps i ++ t := by
  unfold seenAt
  rw [nsuLoopGo_add resps i 1]
  set s := nsuLoopGo resps i initLoop with hsdef
  cases hs : s.stopped
  · cases hr : resps s.calls with
    | failure err => exact ⟨[], by simp [nsuLoopGo, hs, hr]⟩
    | noData => exact ⟨[], by simp [nsuLoopGo, hs, hr]⟩
    | batch b =>
      cases hbe : b.isEmpty
      · by_cases hlen : b.length < 50
        · exact ⟨b, by simp [nsuLoopGo, hs, hr, hbe, hlen]⟩
        · exact ⟨b, by simp [nsuLoopGo, hs, hr, hbe, hlen]⟩
      · exact ⟨[], by simp [nsuLoopGo, hs, hr, hbe]⟩
  · exact ⟨[], by rw [nsuLoopGo_stopped resps 1 s hs]; simp⟩

theorem cursor_eq_max_aux (resps : Nat → FetchResult) (h : respOk resps) :
    ∀ i, cursorAt resps i = maxNsuD (seenAt resps i) := by
  intro i
  induction i with
  | zero => rfl
  | succ i ih =>
    unfold cursorAt seenAt at ih ⊢
    rw [nsuLoopGo_add resps i 1]
    set s := nsuLoopGo resps i initLoop with hsdef
    cases hs : s.stopped
    · have hcalls : s.calls = i := by
        have := nsuLoopGo_active resps i initLoop (by rw [← hsdef]; exact hs)
        rw [← hsdef] at this
        simpa [initLoop] using this
      cases hr : resps s.calls with
      | failure err => simpa [nsuLoopGo, hs, hr] using ih
      | noData => simpa [nsuLoopGo, hs, hr] using ih
      | batch b =>
        cases hbe : b.isEmpty
        · have hfresh : ∀ d ∈ b, s.lastNsu < d.nsu := by
            intro d hd
            have hh := h i b (by rw [← hcalls]; exact hr) d hd
            unfold cursorAt at hh
            rw [← hsdef] at hh
            exact hh
          obtain ⟨d0, hd0⟩ : ∃ d, d ∈ b := by
            cases b with
            | nil => simp at hbe
            | cons x xs => exact ⟨x, List.mem_cons_self x xs⟩
          have hlt : maxNsuD s.docs < maxNsuD b :=
            lt_of_le_of_lt (le_of_eq ih.symm)
              (lt_of_lt_of_le (hfresh d0 hd0) (le_maxNsuD hd0))
          have hmax : max (maxNsuD s.docs) (maxNsuD b) = maxNsuD b :=
            Nat.max_eq_right (Nat.le_of_lt hlt)
          by_cases hlen : b.length < 50
          · simp only [nsuLoopGo, hs, hr, hbe, hlen, Bool.false_eq_true, if_false, if_true]
            rw [maxNsuD_append, hmax]
          · simp only [nsuLoopGo, hs, hr, hbe, hlen, Bool.false_eq_true, if_false, if_true]
            rw [maxNsuD_append, hmax]
        · simpa [nsuLoopGo, hs, hr, hbe] using ih
    · rw [nsuLoopGo_stopped resps 1 s hs]
      exact ih

/-! ### Claim theorems for the NSU loop -/

/-- Claim C1 (amended): the cursor is set each round to the maximum NSU of
that round's batch only; *assuming the server contract* — every batch
contains only NSUs strictly greater than the cursor the round started from —
the cursor after round `i` is ≥ the cursor after round `i-1` and equals the
maximum NSU observed across all rounds so far, starting from 0.  Without
that assumption the cursor can decrease (see the counterexample). -/
theorem cursor_monotone_of_fresh_batches (resps : Nat → FetchResult)
    (h : respOk resps) (i : Nat) :
    cursorAt resps i ≤ cursorAt resps (i + 1)
  ∧ cursorAt resps i = maxNsuD (seenAt resps i) := by
  constructor
  · rw [cursor_eq_max_aux resps h i, cursor_eq_max_aux resps h (i + 1)]
    obtain ⟨t, ht⟩ := seenAt_grows resps i
    rw [ht, maxNsuD_append]
    exact Nat.le_max_left _ _
  · exact cursor_eq_max_aux resps h i

/-- Witness for C1's amended statement on a well-behaved response sequence. -/
theorem cursor_monotone_of_fresh_batches_witness :
    cursorAt respsC1w 1 ≤ cursorAt respsC1w 2
  ∧ cursorAt respsC1w 1 = maxNsuD (seenAt respsC1w 1) :=
  cursor_monotone_of_fresh_batches respsC1w
    (by
      intro i b hb d hd
      cases i with
      | zero =>
        simp only [respsC1w] at hb
        injection hb with hb2
        rw [← hb2] at hd
        rw [List.mem_singleton.mp hd]
        decide
      | succ n =>
        simp [respsC1w] at hb)
    1

set_option maxRecDepth 4000 in
/-- Claim C1 counterexample: after a full round with maximum NSU 149, a batch
whose only NSU is 3 *decreases* the cursor to 3, which is also not the
maximum NSU observed so far. -/
theorem cursor_can_decrease_counterexample :
    cursorAt respsC1x 2 < cursorAt respsC1x 1
  ∧ cursorAt respsC1x 2 ≠ maxNsuD (seenAt respsC1x 2) := by
  constructor
  · decide
  · decide

/-- Claim C8 (confirmed): the NSU fallback loop always terminates — it makes
at most 20 fetch calls, and every round except possibly the last returned a
successful, non-empty batch of at least the page size 50: a failed round, a
round with no batch, or a round with a short batch is never followed by
another round. -/
theorem nsu_loop_terminates (resps : Nat → FetchResult) :
    (nsuLoop resps).calls ≤ 20
  ∧ ∀ i : Nat, i + 1 < (nsuLoop resps).calls →
      ∃ b, resps i = .batch b ∧ b.isEmpty = false ∧ 50 ≤ b.length := by
  constructor
  · have := nsuLoopGo_calls_le resps 20 initLoop
    simpa [nsuLoop, initLoop] using this
  · intro i hi
    exact nsuLoopGo_nonfinal resps 20 initLoop i rfl (Nat.zero_le i) hi

/-- Witness for C8: a full first page forces a second round, so round 0 is a
non-final round with a full batch. -/
theorem nsu_loop_terminates_witness :
    ∃ b, resps8w 0 = .batch b ∧ b.isEmpty = false ∧ 50 ≤ b.length :=
  (nsu_loop_terminates resps8w).2 0 (by decide)

end FecdSync
